import Mathlib

/-!
# Jailhouse, ARM control plane (hypervisor/arch/arm/control.c)

A shallow embedding of the architecture-level control code of the Jailhouse
partitioning hypervisor for 32-bit ARM, and theorems about it.

Modelling conventions.

* The per-CPU array behind `per_cpu(cpu)` is a total function from physical
  CPU numbers to `per_cpu` records; a `struct per_cpu *` is the index of its slot.
* Calls into collaborators that live outside control.c (PSCI bridge, irqchip,
  paging, printk) are recorded, in program order, in `State.trace`.  What they
  return is read from an `Env`.  Every function below calls each collaborator at
  most once per argument, so an oracle indexed by the argument loses nothing.
  Queries without effect (`psci_cpu_stopped`, `this_cpu_id`, register reads) are
  answered by the `Env` or the state and leave no event.
* The collaborators are taken not to write the fields of `per_cpu` and `cell`
  that control.c maintains, with one exception: while a CPU sleeps in
  `psci_suspend` the other CPUs run, so the per-CPU array found at wake-up is
  arbitrary (`Env.per_cpu_at_wake`).
* Stores to the cross-CPU flag `flush_vcpu_caches` are recorded in the trace as
  well, so that their order relative to the TLB flush can be stated.
* `unsigned int`, `u32` and `int` are 32 bits wide; arithmetic on them is done
  on `Nat`/`Int` with explicit reduction modulo `2 ^ 32`.
* Constants and types that come from headers (exit reasons, SGI numbers,
  statistics indices, the width of `sgi.targets`) are fields of `Consts`.
-/

namespace Jailhouse

/-- Number of values of a 32-bit C integer (unsigned int, u32, int, long). -/
def U32 : Nat := 2 ^ 32

/-- The value of `(unsigned int)-1`, returned by arm_cpu_virt2phys on a miss. -/
def NOT_FOUND : Nat := U32 - 1

/-- The struct cpu_set: a bitmap of physical CPU numbers and the highest number
that is looked at. -/
structure cpu_set where
  max_cpu_id : Nat
  bitmap : Nat
deriving DecidableEq, Repr

/-- Modelled from the spec: the macro for_each_cpu is declared in
jailhouse/control.h, outside control.c.  The spec asks for a stable enumeration
order over the set and fixes it by the scenario 2→0, 5→1, 7→2; the model walks
the CPU numbers 0, 1, ..., max_cpu_id and keeps those whose bit is set. -/
def for_each_cpu (set : cpu_set) : List Nat :=
  (List.range (set.max_cpu_id + 1)).filter (fun cpu => set.bitmap.testBit cpu)

/-- The fields of struct cell that control.c uses.  The field id stands for the
identity of the cell (its address), last_virt_id for arch.last_virt_id. -/
structure cell where
  id : Nat
  cpu_set : cpu_set
  last_virt_id : Nat
deriving DecidableEq, Repr

/-- The fields of struct per_cpu that control.c uses. -/
structure per_cpu where
  cpu_id : Nat
  virt_id : Nat
  flush_vcpu_caches : Bool
  stats : Nat → Nat

/-- The struct registers: the exit reason and the user registers r0.. . -/
structure registers where
  exit_reason : Nat
  usr : Nat → Nat

/-- The struct sgi, a software generated interrupt to be sent. -/
structure sgi where
  routing_mode : Nat
  aff1 : Nat
  aff2 : Nat
  aff3 : Nat
  targets : Nat
  id : Nat
deriving DecidableEq, Repr

/-- Registers read by the dump routines. -/
inductive sysreg where
  | ELR_hyp
  | ESR_EL2
  | HDFAR
  | HIFAR
deriving DecidableEq, Repr

/-- Code addresses passed to the firmware as entry points. -/
inductive entry_point where
  | arch_reset_self
  | other (addr : Nat)
deriving DecidableEq, Repr

/-- An argument of printk or panic_printk. -/
inductive Arg where
  | num (n : Nat)
  | str (s : String)
deriving DecidableEq, Repr

/-- Calls that leave control.c, and stores to the cross-CPU flush flag. -/
inductive Event where
  | arm_paging_cell_init (cell : Nat)
  | arm_paging_cell_destroy (cell : Nat)
  | arm_paging_vcpu_flush_tlbs (on_cpu : Nat)
  | arm_cell_dcaches_flush (cell : Nat) (flush : Nat)
  | dsb_nsh
  | irqchip_cell_init (cell : Nat)
  | irqchip_cell_exit (cell : Nat)
  | irqchip_handle_irq (cpu : Nat)
  | irqchip_inject_pending (cpu : Nat)
  | irqchip_send_sgi (s : sgi)
  | arch_handle_trap (cpu : Nat) (exit_reason : Nat)
  | register_smp_ops (cell : Nat)
  | psci_cpu_on (cpu_id : Nat) (entry : entry_point) (context : Nat)
  | psci_resume (cpu_id : Nat)
  | psci_suspend (cpu : Nat)
  | psci_wait_cpu_stopped (cpu_id : Nat)
  | printk (fmt : String) (args : List Arg)
  | panic_printk (fmt : String) (args : List Arg)
  | panic_stop
  | store_flush_vcpu_caches (cpu : Nat) (value : Bool)
deriving DecidableEq, Repr

/-- Constants and type widths that control.c takes from headers. -/
structure Consts where
  EXIT_REASON_IRQ : Nat
  EXIT_REASON_TRAP : Nat
  EXIT_REASON_UNDEF : Nat
  EXIT_REASON_DABT : Nat
  EXIT_REASON_PABT : Nat
  EXIT_REASON_HVC : Nat
  EXIT_REASON_FIQ : Nat
  SGI_INJECT : Nat
  SGI_CPU_OFF : Nat
  JAILHOUSE_CPU_STAT_VMEXITS_TOTAL : Nat
  JAILHOUSE_CPU_STAT_VMEXITS_MANAGEMENT : Nat
  DCACHE_INVALIDATE : Nat
  NUM_USR_REGS : Nat
  /-- Number of bits of the field targets of struct sgi. -/
  sgi_targets_bits : Nat

/-- The case labels of the switch in arch_handle_exit, in source order.  C
requires the labels of one switch to be pairwise different. -/
def Consts.exit_labels (K : Consts) : List Nat :=
  [K.EXIT_REASON_IRQ, K.EXIT_REASON_TRAP, K.EXIT_REASON_UNDEF, K.EXIT_REASON_DABT,
   K.EXIT_REASON_PABT, K.EXIT_REASON_HVC, K.EXIT_REASON_FIQ]

/-- What the collaborators answer. -/
structure Env where
  /-- The return value of arm_paging_cell_init(cell). -/
  arm_paging_cell_init : cell → Int
  /-- The return value of irqchip_cell_init(cell). -/
  irqchip_cell_init : cell → Int
  /-- The return value of psci_cpu_stopped(cpu_id). -/
  psci_cpu_stopped : Nat → Bool
  /-- The return value of psci_cpu_on(cpu_id, entry, context). -/
  psci_cpu_on : Nat → entry_point → Nat → Int
  /-- The return value of psci_wait_cpu_stopped(cpu_id). -/
  psci_wait_cpu_stopped : Nat → Int
  /-- The return value of this_cpu_id(): the CPU that executes the code. -/
  this_cpu_id : Nat
  /-- The per-CPU array as found when psci_suspend(cpu) returns: other CPUs run
  while this one sleeps and may have written to it. -/
  per_cpu_at_wake : (Nat → per_cpu) → Nat → (Nat → per_cpu)

/-- The machine state that control.c reads and writes. -/
structure State where
  per_cpu : Nat → per_cpu
  sysregs : sysreg → Nat
  trace : List Event

/-- Record one event at the end of the trace. -/
def State.emit (s : State) (e : Event) : State :=
  { s with trace := s.trace ++ [e] }

/-- Replace the per-CPU record of one CPU. -/
def State.set_per_cpu (s : State) (cpu : Nat) (p : Jailhouse.per_cpu) : State :=
  { s with per_cpu := Function.update s.per_cpu cpu p }

/-- The statement `cpu_data->stats[idx]++` on a u32 counter. -/
def stats_inc (s : State) (cpu : Nat) (idx : Nat) : State :=
  s.set_per_cpu cpu
    { s.per_cpu cpu with
      stats := Function.update (s.per_cpu cpu).stats idx (((s.per_cpu cpu).stats idx + 1) % U32) }

/-! ## arch_suspend_self, arch_handle_sgi -/

/-- The call psci_suspend(cpu_data): it returns when the CPU is woken; the
per-CPU array is then as the other CPUs left it. -/
def psci_suspend (E : Env) (s : State) (cpu : Nat) : State :=
  { (s.emit (Event.psci_suspend cpu)) with per_cpu := E.per_cpu_at_wake s.per_cpu cpu }

/-- The function arch_suspend_self (control.c:123). -/
def arch_suspend_self (E : Env) (s : State) (cpu_data : Nat) : State :=
  let s1 := psci_suspend E s cpu_data
  if (s1.per_cpu cpu_data).flush_vcpu_caches then
    let s2 := s1.emit (Event.arm_paging_vcpu_flush_tlbs E.this_cpu_id)
    let s3 := s2.emit Event.dsb_nsh
    (s3.set_per_cpu cpu_data { s3.per_cpu cpu_data with flush_vcpu_caches := false }).emit
      (Event.store_flush_vcpu_caches cpu_data false)
  else
    s1

/-- The function arch_handle_sgi (control.c:249). -/
def arch_handle_sgi (K : Consts) (E : Env) (s : State) (cpu_data : Nat) (irqn : Nat) : State :=
  let s1 := stats_inc s cpu_data K.JAILHOUSE_CPU_STAT_VMEXITS_MANAGEMENT
  if irqn = K.SGI_INJECT then
    s1.emit (Event.irqchip_inject_pending cpu_data)
  else if irqn = K.SGI_CPU_OFF then
    arch_suspend_self E s1 cpu_data
  else
    s1.emit (Event.printk "WARN: unknown SGI received %d\n" [Arg.num irqn])

/-! ## arch_dump_exit, arch_dump_abt, arch_handle_exit -/

/-- The loop of arch_dump_exit over n = from, ..., NUM_USR_REGS - 1, with
fuel many iterations left. -/
def arch_dump_exit_regs (regs : registers) : Nat → Nat → State → State
  | 0, _, s => s
  | fuel + 1, n, s =>
    arch_dump_exit_regs regs fuel (n + 1)
      (s.emit (Event.panic_printk "r%d:%s 0x%08lx%s"
        [Arg.num n, Arg.str (if n < 10 then " " else ""), Arg.num (regs.usr n),
         Arg.str (if n % 4 = 3 then "\n" else "  ")]))

/-- The function arch_dump_exit (control.c:134). -/
def arch_dump_exit (K : Consts) (s : State) (regs : registers) (reason : String) : State :=
  let pc := s.sysregs sysreg.ELR_hyp
  let s1 := s.emit (Event.panic_printk "Unhandled HYP %s exit at 0x%x\n" [Arg.str reason, Arg.num pc])
  let s2 := arch_dump_exit_regs regs K.NUM_USR_REGS 0 s1
  s2.emit (Event.panic_printk "\n" [])

/-- The function arch_dump_abt (control.c:147). -/
def arch_dump_abt (s : State) (is_data : Bool) : State :=
  let esr := s.sysregs sysreg.ESR_EL2
  let hxfar := if is_data then s.sysregs sysreg.HDFAR else s.sysregs sysreg.HIFAR
  s.emit (Event.panic_printk "Physical address: 0x%08lx ESR: 0x%08x\n" [Arg.num hxfar, Arg.num esr])

/-- The call panic_stop(), which does not return. -/
def panic_stop (s : State) : State :=
  s.emit Event.panic_stop

/-- The function arch_handle_exit (control.c:161).  The first component is the
returned register context (the pointer regs that was passed in), or none when
the function halts in panic_stop and never returns. -/
def arch_handle_exit (K : Consts) (s : State) (cpu_data : Nat) (regs : registers) :
    Option registers × State :=
  let s1 := stats_inc s cpu_data K.JAILHOUSE_CPU_STAT_VMEXITS_TOTAL
  if regs.exit_reason = K.EXIT_REASON_IRQ then
    (some regs, s1.emit (Event.irqchip_handle_irq cpu_data))
  else if regs.exit_reason = K.EXIT_REASON_TRAP then
    (some regs, s1.emit (Event.arch_handle_trap cpu_data regs.exit_reason))
  else if regs.exit_reason = K.EXIT_REASON_UNDEF then
    (none, panic_stop (arch_dump_exit K s1 regs "undef"))
  else if regs.exit_reason = K.EXIT_REASON_DABT then
    (none, panic_stop (arch_dump_abt (arch_dump_exit K s1 regs "data abort") true))
  else if regs.exit_reason = K.EXIT_REASON_PABT then
    (none, panic_stop (arch_dump_abt (arch_dump_exit K s1 regs "prefetch abort") false))
  else if regs.exit_reason = K.EXIT_REASON_HVC then
    (none, panic_stop (arch_dump_exit K s1 regs "hvc"))
  else if regs.exit_reason = K.EXIT_REASON_FIQ then
    (none, panic_stop (arch_dump_exit K s1 regs "fiq"))
  else
    (none, panic_stop (arch_dump_exit K s1 regs "unknown"))

/-! ## arch_resume_cpu, arch_reset_cpu, arch_suspend_cpu -/

/-- The function arch_resume_cpu (control.c:200). -/
def arch_resume_cpu (E : Env) (s : State) (cpu_id : Nat) : State :=
  if E.psci_cpu_stopped cpu_id then
    s.emit (Event.psci_resume cpu_id)
  else
    s

/-- The function arch_reset_cpu (control.c:222).  The context argument is the
address of per_cpu(cpu_id), that is the slot number cpu_id. -/
def arch_reset_cpu (E : Env) (s : State) (cpu_id : Nat) : State :=
  let cpu_data := cpu_id
  let s1 := s.emit (Event.psci_cpu_on cpu_id entry_point.arch_reset_self cpu_data)
  if E.psci_cpu_on cpu_id entry_point.arch_reset_self cpu_data ≠ 0 then
    s1.emit (Event.printk "ERROR: unable to reset CPU%d (was running)\n" [Arg.num cpu_id])
  else
    s1

/-- The expression `1 << cpu_id`, computed on int.  For cpu_id = 31 the result
is INT_MIN; from 32 on C leaves the shift undefined and the model takes the
truncated value 0. -/
def int_shl_one (cpu_id : Nat) : Int :=
  let u : Nat := (1 <<< cpu_id) % U32
  if u < 2 ^ 31 then (u : Int) else (u : Int) - (U32 : Int)

/-- Conversion of an int to an unsigned field of the given number of bits. -/
def to_unsigned (bits : Nat) (x : Int) : Nat :=
  (x % ((2 : Int) ^ bits)).toNat

/-- The function arch_suspend_cpu (control.c:230). -/
def arch_suspend_cpu (K : Consts) (E : Env) (s : State) (cpu_id : Nat) : State :=
  if E.psci_cpu_stopped cpu_id then
    s
  else
    let sgi : sgi :=
      { routing_mode := 0, aff1 := 0, aff2 := 0, aff3 := 0,
        targets := to_unsigned K.sgi_targets_bits (int_shl_one cpu_id),
        id := K.SGI_CPU_OFF }
    let s1 := s.emit (Event.irqchip_send_sgi sgi)
    s1.emit (Event.psci_wait_cpu_stopped cpu_id)

/-! ## arm_cpu_virt2phys, arch_cell_create, arch_cell_destroy -/

/-- The function arm_cpu_virt2phys (control.c:265): the first CPU of the set
whose virt_id is the one asked for, or `(unsigned int)-1`. -/
def arm_cpu_virt2phys (s : State) (c : cell) (virt_id : Nat) : Nat :=
  match (for_each_cpu c.cpu_set).find? (fun cpu => (s.per_cpu cpu).virt_id == virt_id) with
  | some cpu => cpu
  | none => NOT_FOUND

/-- The expression `virt_id - 1` on unsigned int: below 0 it wraps around to
`2 ^ 32 - 1`. -/
def u32_dec (v : Nat) : Nat :=
  if v = 0 then U32 - 1 else v - 1

/-- The loop of arch_cell_create (control.c:311) over the CPUs still to visit:
the per-CPU array and the counter virt_id after the loop. -/
def arch_cell_create_loop : List Nat → (Nat → per_cpu) → Nat → (Nat → per_cpu) × Nat
  | [], pc, virt_id => (pc, virt_id)
  | cpu :: rest, pc, virt_id =>
    arch_cell_create_loop rest
      (Function.update pc cpu { pc cpu with virt_id := virt_id }) ((virt_id + 1) % U32)

/-- The function arch_cell_create (control.c:297): the return value, the cell
and the state after the call. -/
def arch_cell_create (E : Env) (s : State) (c : cell) : Int × cell × State :=
  let s1 := s.emit (Event.arm_paging_cell_init c.id)
  let err := E.arm_paging_cell_init c
  if err ≠ 0 then
    (err, c, s1)
  else
    let r := arch_cell_create_loop (for_each_cpu c.cpu_set) s1.per_cpu 0
    let c2 : cell := { c with last_virt_id := u32_dec r.2 }
    let s2 : State := { s1 with per_cpu := r.1 }
    let s3 := s2.emit (Event.irqchip_cell_init c.id)
    let err := E.irqchip_cell_init c2
    if err ≠ 0 then
      (err, c2, s3.emit (Event.arm_paging_cell_destroy c.id))
    else
      (0, c2, s3.emit (Event.register_smp_ops c.id))

/-- The loop of arch_cell_destroy (control.c:335) over the CPUs still to visit. -/
def arch_cell_destroy_loop (E : Env) : List Nat → State → State
  | [], s => s
  | cpu :: rest, s =>
    let percpu := s.per_cpu cpu
    let s1 := s.set_per_cpu cpu { percpu with virt_id := percpu.cpu_id }
    arch_cell_destroy_loop E rest (arch_reset_cpu E s1 cpu)

/-- The function arch_cell_destroy (control.c:328). -/
def arch_cell_destroy (K : Consts) (E : Env) (s : State) (c : cell) : State :=
  let s1 := s.emit (Event.arm_cell_dcaches_flush c.id K.DCACHE_INVALIDATE)
  let s2 := arch_cell_destroy_loop E (for_each_cpu c.cpu_set) s1
  let s3 := s2.emit (Event.irqchip_cell_exit c.id)
  s3.emit (Event.arm_paging_cell_destroy c.id)

/-! ## arch_flush_cell_vcpu_caches, arch_config_commit -/

/-- The loop of arch_flush_cell_vcpu_caches (control.c:357) over the CPUs still
to visit. -/
def arch_flush_cell_vcpu_caches_loop (E : Env) : List Nat → State → State
  | [], s => s
  | cpu :: rest, s =>
    arch_flush_cell_vcpu_caches_loop E rest
      (if cpu = E.this_cpu_id then
        s.emit (Event.arm_paging_vcpu_flush_tlbs E.this_cpu_id)
      else
        (s.set_per_cpu cpu { s.per_cpu cpu with flush_vcpu_caches := true }).emit
          (Event.store_flush_vcpu_caches cpu true))

/-- The function arch_flush_cell_vcpu_caches (control.c:353). -/
def arch_flush_cell_vcpu_caches (E : Env) (s : State) (c : cell) : State :=
  arch_flush_cell_vcpu_caches_loop E (for_each_cpu c.cpu_set) s

/-- The function arch_config_commit (control.c:364), whose body is empty. -/
def arch_config_commit (s : State) (_cell_added_removed : cell) : State :=
  s

/-! ## Descriptions of traces, used to state the theorems -/

/-- The events that one call arch_reset_cpu(cpu_id) is expected to add: the
power-on call and, when the firmware refuses it, the error message. -/
def arch_reset_cpu_events (E : Env) (cpu_id : Nat) : List Event :=
  Event.psci_cpu_on cpu_id entry_point.arch_reset_self cpu_id ::
    (if E.psci_cpu_on cpu_id entry_point.arch_reset_self cpu_id ≠ 0 then
      [Event.printk "ERROR: unable to reset CPU%d (was running)\n" [Arg.num cpu_id]]
    else [])

/-- Whether an event is a firmware power-on call for the given CPU. -/
def Event.is_cpu_on (target : Nat) : Event → Bool
  | Event.psci_cpu_on cpu_id _ _ => cpu_id == target
  | _ => false

/-- Whether an event is a local TLB flush. -/
def Event.is_flush_tlbs : Event → Bool
  | Event.arm_paging_vcpu_flush_tlbs _ => true
  | _ => false

/-- Whether an event is a call of one of the two exit collaborators,
irqchip_handle_irq or arch_handle_trap. -/
def Event.is_exit_collaborator : Event → Bool
  | Event.irqchip_handle_irq _ => true
  | Event.arch_handle_trap _ _ => true
  | _ => false

/-- The line that arch_dump_exit prints for register n. -/
def arch_dump_exit_line (regs : registers) (n : Nat) : Event :=
  Event.panic_printk "r%d:%s 0x%08lx%s"
    [Arg.num n, Arg.str (if n < 10 then " " else ""), Arg.num (regs.usr n),
     Arg.str (if n % 4 = 3 then "\n" else "  ")]

/-- The full register snapshot that arch_dump_exit is expected to print: the
header with the reason and the faulting pc, one line per user register, and the
closing newline. -/
def arch_dump_exit_events (K : Consts) (s : State) (regs : registers) (reason : String) :
    List Event :=
  Event.panic_printk "Unhandled HYP %s exit at 0x%x\n"
      [Arg.str reason, Arg.num (s.sysregs sysreg.ELR_hyp)] ::
    ((List.range K.NUM_USR_REGS).map (arch_dump_exit_line regs) ++ [Event.panic_printk "\n" []])

/-- The line with the fault address (HDFAR for a data abort, HIFAR for a
prefetch abort) and the syndrome ESR_EL2. -/
def arch_dump_abt_event (s : State) (is_data : Bool) : Event :=
  Event.panic_printk "Physical address: 0x%08lx ESR: 0x%08x\n"
    [Arg.num (if is_data then s.sysregs sysreg.HDFAR else s.sysregs sysreg.HIFAR),
     Arg.num (s.sysregs sysreg.ESR_EL2)]

/-- What arch_flush_cell_vcpu_caches is expected to do for one CPU of the set:
flush the local TLB when it is the executing CPU, else store true to the flag of
that CPU. -/
def arch_flush_event (E : Env) (cpu : Nat) : Event :=
  if cpu = E.this_cpu_id then Event.arm_paging_vcpu_flush_tlbs E.this_cpu_id
  else Event.store_flush_vcpu_caches cpu true

/-! ## Concrete inputs used by the scenarios -/

/-- A CPU slot as left by the root cell: the virtual id is the physical id, no
flush is owed and all counters are zero. -/
def root_per_cpu (cpu : Nat) : per_cpu :=
  { cpu_id := cpu, virt_id := cpu, flush_vcpu_caches := false, stats := fun _ => 0 }

/-- A state in which every CPU still has its root-cell identity. -/
def root_state : State :=
  { per_cpu := root_per_cpu, sysregs := fun _ => 0, trace := [] }

/-- The cell of scenario 1, with the CPUs 2, 5 and 7. -/
def cell_2_5_7 : cell :=
  { id := 1, cpu_set := { max_cpu_id := 7, bitmap := 0b10100100 }, last_virt_id := 0 }

/-- The cell of scenario 5, with the CPUs 0 and 1. -/
def cell_0_1 : cell :=
  { id := 2, cpu_set := { max_cpu_id := 1, bitmap := 0b11 }, last_virt_id := 1 }

/-- Collaborators that all succeed; CPU 0 executes, every CPU is reported
stopped, and nobody writes to the per-CPU array during a suspend. -/
def env_ok : Env :=
  { arm_paging_cell_init := fun _ => 0
    irqchip_cell_init := fun _ => 0
    psci_cpu_stopped := fun _ => true
    psci_cpu_on := fun _ _ _ => 0
    psci_wait_cpu_stopped := fun _ => 0
    this_cpu_id := 0
    per_cpu_at_wake := fun pc _ => pc }

/-- As env_ok, but irqchip_cell_init fails with -ENOMEM. -/
def env_irqchip_fails : Env :=
  { env_ok with irqchip_cell_init := fun _ => -12 }

/-- As env_ok, but every CPU is reported running: psci_cpu_stopped is false and
psci_cpu_on refuses with a non-zero code. -/
def env_running : Env :=
  { env_ok with psci_cpu_stopped := fun _ => false, psci_cpu_on := fun _ _ _ => -4 }

/-- Header constants with the seven exit reasons numbered 1 to 7 and a 16 bit
wide targets field. -/
def consts16 : Consts :=
  { EXIT_REASON_UNDEF := 1, EXIT_REASON_HVC := 2, EXIT_REASON_PABT := 3,
    EXIT_REASON_DABT := 4, EXIT_REASON_TRAP := 5, EXIT_REASON_IRQ := 6,
    EXIT_REASON_FIQ := 7, SGI_INJECT := 0, SGI_CPU_OFF := 1,
    JAILHOUSE_CPU_STAT_VMEXITS_TOTAL := 0, JAILHOUSE_CPU_STAT_VMEXITS_MANAGEMENT := 1,
    DCACHE_INVALIDATE := 1, NUM_USR_REGS := 13, sgi_targets_bits := 16 }

/-- A state at a data abort: the fault address registers and the syndrome hold
recognisable values. -/
def abort_state : State :=
  { per_cpu := root_per_cpu
    sysregs := fun r =>
      match r with
      | sysreg.ELR_hyp => 0x8000
      | sysreg.ESR_EL2 => 0x93000007
      | sysreg.HDFAR => 0xdead000
      | sysreg.HIFAR => 0xbeef000
    trace := [] }

/-- A register context with the given exit reason and r0 = 0, r1 = 1, ... -/
def regs_with_reason (reason : Nat) : registers :=
  { exit_reason := reason, usr := fun n => n }

/-- As consts16, with a targets field of 32 bits. -/
def consts32 : Consts :=
  { consts16 with sgi_targets_bits := 32 }

/-- As consts16, with a targets field of 64 bits. -/
def consts64 : Consts :=
  { consts16 with sgi_targets_bits := 64 }

/-- A state in which CPU 1 owes a flush and sleeps: another CPU has set its
flag. -/
def flush_owed_state : State :=
  { root_state with
    per_cpu := Function.update root_per_cpu 1 { root_per_cpu 1 with flush_vcpu_caches := true } }

/-- As env_ok, with CPU 1 as the executing CPU. -/
def env_cpu1 : Env :=
  { env_ok with this_cpu_id := 1 }

/-! ## Facts about for_each_cpu -/

theorem for_each_cpu_pairwise (set : cpu_set) : (for_each_cpu set).Pairwise (· < ·) :=
  List.Pairwise.filter _ (List.pairwise_lt_range _)

theorem for_each_cpu_nodup (set : cpu_set) : (for_each_cpu set).Nodup :=
  (for_each_cpu_pairwise set).imp (fun h => Nat.ne_of_lt h)

theorem mem_for_each_cpu (set : cpu_set) (cpu : Nat) :
    cpu ∈ for_each_cpu set ↔ cpu ≤ set.max_cpu_id ∧ set.bitmap.testBit cpu = true := by
  simp [for_each_cpu, List.mem_filter, List.mem_range, Nat.lt_succ_iff]

theorem for_each_cpu_length_le (set : cpu_set) :
    (for_each_cpu set).length ≤ set.max_cpu_id + 1 := by
  have h := List.length_filter_le (fun cpu => set.bitmap.testBit cpu)
    (List.range (set.max_cpu_id + 1))
  simpa [for_each_cpu] using h

/-! ## The loop of arch_cell_create -/

theorem arch_cell_create_loop_snd (l : List Nat) (pc : Nat → per_cpu) (v : Nat) :
    (arch_cell_create_loop l pc v).2 = (v + l.length) % U32 ∨
      (l = [] ∧ (arch_cell_create_loop l pc v).2 = v) := by
  induction l generalizing pc v with
  | nil => right; simp [arch_cell_create_loop]
  | cons a rest ih =>
    left
    rcases ih (Function.update pc a { pc a with virt_id := v }) ((v + 1) % U32) with h | ⟨h1, h2⟩
    · simp only [arch_cell_create_loop, h, List.length_cons]
      rw [Nat.add_mod, Nat.mod_mod, ← Nat.add_mod]
      congr 1; omega
    · subst h1
      simp only [arch_cell_create_loop] at h2 ⊢
      simp

theorem arch_cell_create_loop_not_mem (l : List Nat) (pc : Nat → per_cpu) (v : Nat)
    (cpu : Nat) (h : cpu ∉ l) : (arch_cell_create_loop l pc v).1 cpu = pc cpu := by
  induction l generalizing pc v with
  | nil => rfl
  | cons a rest ih =>
    simp only [List.mem_cons, not_or] at h
    simp only [arch_cell_create_loop]
    rw [ih _ _ h.2, Function.update_noteq h.1]

theorem arch_cell_create_loop_virt_id (l : List Nat) (pc : Nat → per_cpu) (v : Nat)
    (hl : l.Pairwise (· < ·)) (hv : v < U32) (cpu : Nat) (h : cpu ∈ l) :
    ((arch_cell_create_loop l pc v).1 cpu).virt_id
      = (v + (l.filter (· < cpu)).length) % U32 := by
  induction l generalizing pc v with
  | nil => simp at h
  | cons a rest ih =>
    rw [List.pairwise_cons] at hl
    simp only [arch_cell_create_loop]
    rcases List.mem_cons.mp h with rfl | hmem
    · have hnot : cpu ∉ rest := fun hm => Nat.lt_irrefl _ (hl.1 _ hm)
      rw [arch_cell_create_loop_not_mem _ _ _ _ hnot, Function.update_same]
      have hf : (cpu :: rest).filter (· < cpu) = [] := by
        rw [List.filter_eq_nil_iff]
        intro x hx
        rcases List.mem_cons.mp hx with rfl | hx
        · simp
        · have := hl.1 x hx
          simp only [decide_eq_true_eq]; omega
      rw [hf]
      simp [Nat.mod_eq_of_lt hv]
    · have hlt : a < cpu := hl.1 _ hmem
      rw [ih _ _ hl.2 (Nat.mod_lt _ (by decide)) hmem]
      have hf : (a :: rest).filter (· < cpu) = a :: rest.filter (· < cpu) := by
        simp [List.filter_cons, hlt]
      rw [hf, List.length_cons, Nat.add_mod, Nat.mod_mod, ← Nat.add_mod]
      congr 1; omega

/-- In a strictly ascending list the elements below the one at position i are
the first i elements. -/
theorem pairwise_filter_lt_length (l : List Nat) (hl : l.Pairwise (· < ·)) (i : Nat)
    (hi : i < l.length) : (l.filter (· < l[i])).length = i := by
  induction l generalizing i with
  | nil => simp at hi
  | cons a rest ih =>
    rw [List.pairwise_cons] at hl
    cases i with
    | zero =>
      simp only [List.getElem_cons_zero, List.length_eq_zero]
      rw [List.filter_eq_nil_iff]
      intro x hx
      rcases List.mem_cons.mp hx with rfl | hx
      · simp
      · have := hl.1 x hx
        simp only [decide_eq_true_eq]; omega
    | succ j =>
      have hj : j < rest.length := by simpa using hi
      have hlt : a < rest[j] := hl.1 _ (List.getElem_mem _)
      simp only [List.getElem_cons_succ]
      rw [List.filter_cons]
      simp [hlt, ih hl.2 j hj]

/-! ## arch_cell_create -/

theorem arch_cell_create_paging_ok (E : Env) (s : State) (c : cell)
    (hok : (arch_cell_create E s c).1 = 0) : E.arm_paging_cell_init c = 0 := by
  by_contra hne
  simp only [arch_cell_create, ne_eq, hne, not_false_eq_true, if_true] at hok

theorem arch_cell_create_per_cpu (E : Env) (s : State) (c : cell)
    (hp : E.arm_paging_cell_init c = 0) :
    (arch_cell_create E s c).2.2.per_cpu
      = (arch_cell_create_loop (for_each_cpu c.cpu_set) s.per_cpu 0).1 := by
  simp only [arch_cell_create, hp, ne_eq, not_true_eq_false, if_false, State.emit]
  split <;> rfl

theorem arch_cell_create_last_virt_id (E : Env) (s : State) (c : cell)
    (hp : E.arm_paging_cell_init c = 0) :
    (arch_cell_create E s c).2.1.last_virt_id
      = u32_dec (arch_cell_create_loop (for_each_cpu c.cpu_set) s.per_cpu 0).2 := by
  simp only [arch_cell_create, hp, ne_eq, not_true_eq_false, if_false, State.emit]
  split <;> rfl

theorem arch_cell_create_cpu_set (E : Env) (s : State) (c : cell) :
    (arch_cell_create E s c).2.1.cpu_set = c.cpu_set := by
  simp only [arch_cell_create]
  split
  · rfl
  · split <;> rfl

/-- The call arch_cell_create returns 0 exactly when both arm_paging_cell_init and
irqchip_cell_init (called on the cell with last_virt_id set) return 0. -/
theorem arch_cell_create_ok_iff (E : Env) (s : State) (c : cell) :
    (arch_cell_create E s c).1 = 0 ↔
      E.arm_paging_cell_init c = 0 ∧
      E.irqchip_cell_init
        { c with
          last_virt_id := u32_dec (arch_cell_create_loop (for_each_cpu c.cpu_set) s.per_cpu 0).2 }
        = 0 := by
  unfold arch_cell_create
  dsimp only [State.emit]
  by_cases hp : E.arm_paging_cell_init c = 0
  · by_cases hi : E.irqchip_cell_init
        { c with
          last_virt_id := u32_dec (arch_cell_create_loop (for_each_cpu c.cpu_set) s.per_cpu 0).2 }
        = 0
    · simp [hp, hi]
    · simp [hp, hi]
  · simp [hp]

/-- After the paging context was built, the CPU at position i of the
enumeration carries the virtual id i. -/
theorem arch_cell_create_virt_id_at (E : Env) (s : State) (c : cell)
    (hmax : c.cpu_set.max_cpu_id < U32) (hp : E.arm_paging_cell_init c = 0)
    (cpu : Nat) (h : cpu ∈ for_each_cpu c.cpu_set) :
    ((arch_cell_create E s c).2.2.per_cpu cpu).virt_id
      = ((for_each_cpu c.cpu_set).filter (· < cpu)).length := by
  rw [arch_cell_create_per_cpu E s c hp,
    arch_cell_create_loop_virt_id _ _ _ (for_each_cpu_pairwise _) (by decide) cpu h,
    Nat.zero_add]
  apply Nat.mod_eq_of_lt
  have h1 := List.length_filter_le (fun x => decide (x < cpu)) (for_each_cpu c.cpu_set)
  have h2 := for_each_cpu_length_le c.cpu_set
  have h3 : ((for_each_cpu c.cpu_set).filter (· < cpu)).length
      < (for_each_cpu c.cpu_set).length := by
    obtain ⟨i, hi, rfl⟩ := List.getElem_of_mem h
    rw [pairwise_filter_lt_length _ (for_each_cpu_pairwise _) i hi]
    exact hi
  omega

/-- After the paging context was built for a non-empty CPU set, last_virt_id is
the number of CPUs of the set minus one. -/
theorem arch_cell_create_last_virt_id_eq (E : Env) (s : State) (c : cell)
    (hmax : c.cpu_set.max_cpu_id < U32) (hp : E.arm_paging_cell_init c = 0)
    (hne : for_each_cpu c.cpu_set ≠ []) :
    (arch_cell_create E s c).2.1.last_virt_id = (for_each_cpu c.cpu_set).length - 1 := by
  have hlen : 0 < (for_each_cpu c.cpu_set).length := List.length_pos.mpr hne
  have h2 := for_each_cpu_length_le c.cpu_set
  rw [arch_cell_create_last_virt_id E s c hp]
  rcases arch_cell_create_loop_snd (for_each_cpu c.cpu_set) s.per_cpu 0 with h | ⟨h, _⟩
  · rw [h, Nat.zero_add]
    simp only [u32_dec, U32] at hmax ⊢
    split <;> omega
  · exact absurd h hne

/-- Claim C1.  When arch_cell_create succeeds (both the paging and the irqchip
initialisation returned 0), every CPU of the cell's set has as virtual id the
number of CPUs of the set with a smaller physical id; read along the ascending
enumeration the virtual ids are 0, 1, ..., n-1, each once; and for a non-empty
set last_virt_id is n-1. -/
theorem arch_cell_create_virt_ids (E : Env) (s : State) (c : cell)
    (hmax : c.cpu_set.max_cpu_id < U32)
    (hok : (arch_cell_create E s c).1 = 0) :
    (∀ cpu ∈ for_each_cpu c.cpu_set,
        ((arch_cell_create E s c).2.2.per_cpu cpu).virt_id
          = ((for_each_cpu c.cpu_set).filter (· < cpu)).length) ∧
    (for_each_cpu c.cpu_set).map (fun cpu => ((arch_cell_create E s c).2.2.per_cpu cpu).virt_id)
      = List.range (for_each_cpu c.cpu_set).length ∧
    (for_each_cpu c.cpu_set ≠ [] →
      (arch_cell_create E s c).2.1.last_virt_id = (for_each_cpu c.cpu_set).length - 1) := by
  have hp := arch_cell_create_paging_ok E s c hok
  refine ⟨fun cpu h => arch_cell_create_virt_id_at E s c hmax hp cpu h, ?_, ?_⟩
  · apply List.ext_getElem
    · simp
    · intro i h1 h2
      have hi : i < (for_each_cpu c.cpu_set).length := by simpa using h1
      rw [List.getElem_map, List.getElem_range,
        arch_cell_create_virt_id_at E s c hmax hp _ (List.getElem_mem _),
        pairwise_filter_lt_length _ (for_each_cpu_pairwise _) i hi]
  · exact arch_cell_create_last_virt_id_eq E s c hmax hp

/-- Scenario 1 as an instance of claim C1: the cell with the CPUs 2, 5 and 7 is
created successfully; the CPUs get the virtual ids 0, 1 and 2 and last_virt_id
is 2. -/
theorem arch_cell_create_virt_ids_witness :
    for_each_cpu cell_2_5_7.cpu_set = [2, 5, 7] ∧
    ((arch_cell_create env_ok root_state cell_2_5_7).2.2.per_cpu 2).virt_id = 0 ∧
    ((arch_cell_create env_ok root_state cell_2_5_7).2.2.per_cpu 5).virt_id = 1 ∧
    ((arch_cell_create env_ok root_state cell_2_5_7).2.2.per_cpu 7).virt_id = 2 ∧
    (arch_cell_create env_ok root_state cell_2_5_7).2.1.last_virt_id = 2 ∧
    [2, 5, 7].map (fun cpu => ((arch_cell_create env_ok root_state cell_2_5_7).2.2.per_cpu cpu).virt_id)
      = List.range 3 := by
  have hcpus : for_each_cpu cell_2_5_7.cpu_set = [2, 5, 7] := by decide
  have h := arch_cell_create_virt_ids env_ok root_state cell_2_5_7 (by decide) (by decide)
  rw [hcpus] at h
  obtain ⟨h1, h2, h3⟩ := h
  refine ⟨hcpus, ?_, ?_, ?_, ?_, h2⟩
  · exact h1 2 (by decide)
  · exact h1 5 (by decide)
  · exact h1 7 (by decide)
  · exact h3 (by decide)

/-- On values of unsigned int the wrap-around decrement is subtraction of 1
modulo `2 ^ 32`. -/
theorem u32_dec_eq_mod (v : Nat) (hv : v < U32) : u32_dec v = (v + U32 - 1) % U32 := by
  simp only [u32_dec, U32] at hv ⊢
  split <;> omega

/-! ## arm_cpu_virt2phys -/

theorem arm_cpu_virt2phys_miss (s : State) (c : cell) (v : Nat)
    (h : ∀ cpu ∈ for_each_cpu c.cpu_set, (s.per_cpu cpu).virt_id ≠ v) :
    arm_cpu_virt2phys s c v = NOT_FOUND := by
  have hnone : (for_each_cpu c.cpu_set).find? (fun cpu => (s.per_cpu cpu).virt_id == v) = none := by
    rw [List.find?_eq_none]
    intro cpu hcpu
    simpa using h cpu hcpu
  simp only [arm_cpu_virt2phys, hnone]

/-- Claim C2.  After a successful arch_cell_create, a virtual id that is not in
0..=last_virt_id of the cell is answered by arm_cpu_virt2phys with
`(unsigned int)-1`, and that value is not the physical id of a CPU of the cell. -/
theorem arm_cpu_virt2phys_out_of_range (E : Env) (s : State) (c : cell)
    (hmax : c.cpu_set.max_cpu_id < NOT_FOUND)
    (hok : (arch_cell_create E s c).1 = 0)
    (v : Nat) (hv : ¬ v ≤ (arch_cell_create E s c).2.1.last_virt_id) :
    arm_cpu_virt2phys (arch_cell_create E s c).2.2 (arch_cell_create E s c).2.1 v = NOT_FOUND ∧
    NOT_FOUND ∉ for_each_cpu (arch_cell_create E s c).2.1.cpu_set := by
  have hmax2 : c.cpu_set.max_cpu_id < U32 := by
    simp only [NOT_FOUND, U32] at hmax ⊢
    omega
  have hp := arch_cell_create_paging_ok E s c hok
  constructor
  · apply arm_cpu_virt2phys_miss
    rw [arch_cell_create_cpu_set]
    intro cpu hcpu heq
    have hne : for_each_cpu c.cpu_set ≠ [] := List.ne_nil_of_mem hcpu
    have hlast := arch_cell_create_last_virt_id_eq E s c hmax2 hp hne
    have hid := arch_cell_create_virt_id_at E s c hmax2 hp cpu hcpu
    obtain ⟨i, hi, rfl⟩ := List.getElem_of_mem hcpu
    rw [pairwise_filter_lt_length _ (for_each_cpu_pairwise _) i hi] at hid
    omega
  · rw [arch_cell_create_cpu_set, mem_for_each_cpu]
    intro h
    omega

/-- An instance of claim C2: in the cell with the CPUs 2, 5 and 7 the virtual
id 3 lies above last_virt_id = 2 and is not found. -/
theorem arm_cpu_virt2phys_out_of_range_witness :
    cell_2_5_7.cpu_set.max_cpu_id < NOT_FOUND ∧
    (arch_cell_create env_ok root_state cell_2_5_7).1 = 0 ∧
    ¬ 3 ≤ (arch_cell_create env_ok root_state cell_2_5_7).2.1.last_virt_id ∧
    arm_cpu_virt2phys (arch_cell_create env_ok root_state cell_2_5_7).2.2
      (arch_cell_create env_ok root_state cell_2_5_7).2.1 3 = NOT_FOUND ∧
    NOT_FOUND ∉ for_each_cpu (arch_cell_create env_ok root_state cell_2_5_7).2.1.cpu_set :=
  ⟨by decide, by decide, by decide,
    arm_cpu_virt2phys_out_of_range env_ok root_state cell_2_5_7 (by decide) (by decide) 3
      (by decide)⟩

/-- What arch_cell_create does when the paging context is built and
irqchip_cell_init then fails: the error is returned, the paging context is
destroyed, SMP ops are not registered, and the per-CPU array is the one the
assignment loop produced. -/
theorem arch_cell_create_irqchip_failure (E : Env) (s : State) (c : cell)
    (hp : E.arm_paging_cell_init c = 0) (hne : (arch_cell_create E s c).1 ≠ 0) :
    (arch_cell_create E s c).1
      = E.irqchip_cell_init
          { c with
            last_virt_id := u32_dec (arch_cell_create_loop (for_each_cpu c.cpu_set) s.per_cpu 0).2 } ∧
    (arch_cell_create E s c).2.2.trace
      = s.trace ++ [Event.arm_paging_cell_init c.id, Event.irqchip_cell_init c.id,
          Event.arm_paging_cell_destroy c.id] ∧
    (arch_cell_create E s c).2.2.per_cpu
      = (arch_cell_create_loop (for_each_cpu c.cpu_set) s.per_cpu 0).1 := by
  have hi : E.irqchip_cell_init
      { c with
        last_virt_id := u32_dec (arch_cell_create_loop (for_each_cpu c.cpu_set) s.per_cpu 0).2 }
      ≠ 0 := by
    intro h
    exact hne ((arch_cell_create_ok_iff E s c).mpr ⟨hp, h⟩)
  refine ⟨?_, ?_, arch_cell_create_per_cpu E s c hp⟩
  · unfold arch_cell_create
    dsimp only [State.emit]
    simp [hp, hi]
  · unfold arch_cell_create
    dsimp only [State.emit]
    simp [hp, hi]

/-- Claim C3, evaluated where it fails.  The cell with the CPUs 2, 5 and 7 is
created from the root state and irqchip_cell_init fails with -12.
arch_cell_create returns -12, destroys the paging context and does not register
SMP ops; but the CPUs 2, 5 and 7, which had the virtual ids 2, 5 and 7 before the
call, are left with the virtual ids 0, 1 and 2, and last_virt_id, 0 before the
call, is left at 2. -/
theorem arch_cell_create_irqchip_failure_not_unwound :
    (arch_cell_create env_irqchip_fails root_state cell_2_5_7).1 = -12 ∧
    (arch_cell_create env_irqchip_fails root_state cell_2_5_7).2.2.trace
      = [Event.arm_paging_cell_init 1, Event.irqchip_cell_init 1,
         Event.arm_paging_cell_destroy 1] ∧
    [2, 5, 7].map (fun cpu => (root_state.per_cpu cpu).virt_id) = [2, 5, 7] ∧
    [2, 5, 7].map (fun cpu =>
      ((arch_cell_create env_irqchip_fails root_state cell_2_5_7).2.2.per_cpu cpu).virt_id)
      = [0, 1, 2] ∧
    cell_2_5_7.last_virt_id = 0 ∧
    (arch_cell_create env_irqchip_fails root_state cell_2_5_7).2.1.last_virt_id = 2 := by
  decide

/-! ## arch_reset_cpu, arch_resume_cpu -/

theorem arch_reset_cpu_eq (E : Env) (s : State) (cpu_id : Nat) :
    arch_reset_cpu E s cpu_id = { s with trace := s.trace ++ arch_reset_cpu_events E cpu_id } := by
  unfold arch_reset_cpu arch_reset_cpu_events
  dsimp only
  split_ifs <;> simp [State.emit]

theorem countP_is_cpu_on_events (E : Env) (cpu target : Nat) :
    (arch_reset_cpu_events E cpu).countP (Event.is_cpu_on target)
      = if cpu = target then 1 else 0 := by
  unfold arch_reset_cpu_events
  by_cases h : cpu = target
  · split_ifs <;> simp [List.countP_cons, Event.is_cpu_on, h]
  · split_ifs <;> simp [List.countP_cons, Event.is_cpu_on, h]

/-- Claim C9.  arch_reset_cpu always returns, and leaves the per-CPU array and
the registers as they were.  It adds to the trace exactly one power-on call, for
the CPU asked for, with arch_reset_self as entry point and the CPU's own per-CPU
slot as context; when the firmware refuses the call (non-zero return value: the
CPU was running) the error message naming the CPU follows, and nothing else. -/
theorem arch_reset_cpu_refused_is_logged (E : Env) (s : State) (cpu_id : Nat) :
    (arch_reset_cpu E s cpu_id).per_cpu = s.per_cpu ∧
    (arch_reset_cpu E s cpu_id).sysregs = s.sysregs ∧
    (E.psci_cpu_on cpu_id entry_point.arch_reset_self cpu_id ≠ 0 →
      (arch_reset_cpu E s cpu_id).trace = s.trace ++
        [Event.psci_cpu_on cpu_id entry_point.arch_reset_self cpu_id,
         Event.printk "ERROR: unable to reset CPU%d (was running)\n" [Arg.num cpu_id]]) ∧
    (E.psci_cpu_on cpu_id entry_point.arch_reset_self cpu_id = 0 →
      (arch_reset_cpu E s cpu_id).trace = s.trace ++
        [Event.psci_cpu_on cpu_id entry_point.arch_reset_self cpu_id]) ∧
    (arch_reset_cpu E s cpu_id).trace.countP (Event.is_cpu_on cpu_id)
      = s.trace.countP (Event.is_cpu_on cpu_id) + 1 := by
  rw [arch_reset_cpu_eq]
  refine ⟨rfl, rfl, ?_, ?_, ?_⟩
  · intro h
    simp [arch_reset_cpu_events, h]
  · intro h
    simp [arch_reset_cpu_events, h]
  · simp only [List.countP_append, countP_is_cpu_on_events, if_true]

/-- An instance of claim C9: CPU 3 is running and the firmware refuses to power
it on; the call and the error message are recorded and no per-CPU state
changes. -/
theorem arch_reset_cpu_refused_is_logged_witness :
    env_running.psci_cpu_on 3 entry_point.arch_reset_self 3 ≠ 0 ∧
    (arch_reset_cpu env_running root_state 3).per_cpu = root_state.per_cpu ∧
    (arch_reset_cpu env_running root_state 3).trace =
      [Event.psci_cpu_on 3 entry_point.arch_reset_self 3,
       Event.printk "ERROR: unable to reset CPU%d (was running)\n" [Arg.num 3]] :=
  ⟨by decide, (arch_reset_cpu_refused_is_logged env_running root_state 3).1,
    (arch_reset_cpu_refused_is_logged env_running root_state 3).2.2.1 (by decide)⟩

/-- Claim C10.  arch_resume_cpu on a CPU that is not reported stopped returns
the state unchanged, and on a CPU that is reported stopped adds exactly the
firmware call psci_resume for it; in both cases the per-CPU array and the
registers are not written. -/
theorem arch_resume_cpu_noop_unless_stopped (E : Env) (s : State) (cpu_id : Nat) :
    (E.psci_cpu_stopped cpu_id = false → arch_resume_cpu E s cpu_id = s) ∧
    (E.psci_cpu_stopped cpu_id = true →
      (arch_resume_cpu E s cpu_id).trace = s.trace ++ [Event.psci_resume cpu_id]) ∧
    (Event.psci_resume cpu_id ∈ (arch_resume_cpu E s cpu_id).trace ↔
      (E.psci_cpu_stopped cpu_id = true ∨ Event.psci_resume cpu_id ∈ s.trace)) ∧
    (arch_resume_cpu E s cpu_id).per_cpu = s.per_cpu ∧
    (arch_resume_cpu E s cpu_id).sysregs = s.sysregs := by
  unfold arch_resume_cpu
  cases h : E.psci_cpu_stopped cpu_id <;> simp [State.emit, or_comm]

/-- An instance of claim C10: CPU 3 is running, and resuming it changes
nothing; CPU 3 is stopped, and resuming it issues the firmware call. -/
theorem arch_resume_cpu_noop_unless_stopped_witness :
    env_running.psci_cpu_stopped 3 = false ∧
    arch_resume_cpu env_running root_state 3 = root_state ∧
    env_ok.psci_cpu_stopped 3 = true ∧
    (arch_resume_cpu env_ok root_state 3).trace = [Event.psci_resume 3] :=
  ⟨by decide, (arch_resume_cpu_noop_unless_stopped env_running root_state 3).1 (by decide),
    by decide, (arch_resume_cpu_noop_unless_stopped env_ok root_state 3).2.1 (by decide)⟩

/-! ## arch_cell_destroy -/

theorem arch_cell_destroy_loop_sysregs (E : Env) (l : List Nat) (s : State) :
    (arch_cell_destroy_loop E l s).sysregs = s.sysregs := by
  induction l generalizing s with
  | nil => rfl
  | cons a rest ih =>
    simp only [arch_cell_destroy_loop]
    rw [ih, arch_reset_cpu_eq]
    rfl

theorem arch_cell_destroy_loop_trace (E : Env) (l : List Nat) (s : State) :
    (arch_cell_destroy_loop E l s).trace = s.trace ++ l.flatMap (arch_reset_cpu_events E) := by
  induction l generalizing s with
  | nil => simp [arch_cell_destroy_loop]
  | cons a rest ih =>
    simp only [arch_cell_destroy_loop]
    rw [ih, arch_reset_cpu_eq]
    simp [State.set_per_cpu, List.flatMap_cons]

theorem arch_cell_destroy_loop_per_cpu (E : Env) (l : List Nat) (s : State) (cpu : Nat) :
    (arch_cell_destroy_loop E l s).per_cpu cpu
      = if cpu ∈ l then { s.per_cpu cpu with virt_id := (s.per_cpu cpu).cpu_id }
        else s.per_cpu cpu := by
  induction l generalizing s with
  | nil => simp [arch_cell_destroy_loop]
  | cons a rest ih =>
    simp only [arch_cell_destroy_loop]
    rw [ih, arch_reset_cpu_eq]
    by_cases hca : cpu = a
    · subst hca
      by_cases hr : cpu ∈ rest <;> simp [State.set_per_cpu, hr]
    · by_cases hr : cpu ∈ rest <;> simp [State.set_per_cpu, hr, hca, Function.update_noteq hca]

theorem countP_is_cpu_on_flatMap (E : Env) (l : List Nat) (target : Nat) :
    (l.flatMap (arch_reset_cpu_events E)).countP (Event.is_cpu_on target) = l.count target := by
  induction l with
  | nil => simp
  | cons a rest ih =>
    rw [List.flatMap_cons, List.countP_append, ih, countP_is_cpu_on_events, List.count_cons]
    by_cases h : a = target <;> simp [h, Nat.add_comm]

theorem count_cpu_on_flatMap (E : Env) (l : List Nat) (target : Nat) :
    (l.flatMap (arch_reset_cpu_events E)).count
      (Event.psci_cpu_on target entry_point.arch_reset_self target) = l.count target := by
  induction l with
  | nil => simp
  | cons a rest ih =>
    rw [List.flatMap_cons, List.count_append, ih, List.count_cons]
    have h1 : (arch_reset_cpu_events E a).count
        (Event.psci_cpu_on target entry_point.arch_reset_self target)
          = if a = target then 1 else 0 := by
      unfold arch_reset_cpu_events
      by_cases h : a = target
      · split_ifs <;> simp [List.count_cons, h]
      · split_ifs <;> simp [List.count_cons, h]
    rw [h1]
    by_cases h : a = target <;> simp [h, Nat.add_comm]

/-- Claim C4.  arch_cell_destroy gives every CPU of the cell's set the value of
its cpu_id field as virtual id, which is the CPU's number wherever the slot holds
its own number, and leaves the records of all other CPUs as they were.  Its calls are, in this order: the data-cache
invalidation, then for each CPU of the set the reset (the power-on call with
arch_reset_self as entry point, followed by the error message if the firmware
refuses), then irqchip_cell_exit, then arm_paging_cell_destroy.  For each CPU of
the set exactly one power-on call is made, whatever the collaborators answer. -/
theorem arch_cell_destroy_resets_every_cpu (K : Consts) (E : Env) (s : State) (c : cell) :
    (∀ cpu ∈ for_each_cpu c.cpu_set,
      ((arch_cell_destroy K E s c).per_cpu cpu).virt_id = (s.per_cpu cpu).cpu_id) ∧
    (∀ cpu ∈ for_each_cpu c.cpu_set, (s.per_cpu cpu).cpu_id = cpu →
      ((arch_cell_destroy K E s c).per_cpu cpu).virt_id = cpu) ∧
    (∀ cpu, cpu ∉ for_each_cpu c.cpu_set →
      (arch_cell_destroy K E s c).per_cpu cpu = s.per_cpu cpu) ∧
    (arch_cell_destroy K E s c).trace
      = s.trace ++ [Event.arm_cell_dcaches_flush c.id K.DCACHE_INVALIDATE]
          ++ (for_each_cpu c.cpu_set).flatMap (arch_reset_cpu_events E)
          ++ [Event.irqchip_cell_exit c.id, Event.arm_paging_cell_destroy c.id] ∧
    (∀ cpu ∈ for_each_cpu c.cpu_set,
      ((for_each_cpu c.cpu_set).flatMap (arch_reset_cpu_events E)).countP (Event.is_cpu_on cpu) = 1 ∧
      ((for_each_cpu c.cpu_set).flatMap (arch_reset_cpu_events E)).count
        (Event.psci_cpu_on cpu entry_point.arch_reset_self cpu) = 1) ∧
    (∀ cpu, cpu ∉ for_each_cpu c.cpu_set →
      ((for_each_cpu c.cpu_set).flatMap (arch_reset_cpu_events E)).countP (Event.is_cpu_on cpu) = 0) := by
  have hpc : ∀ cpu, (arch_cell_destroy K E s c).per_cpu cpu
      = if cpu ∈ for_each_cpu c.cpu_set then
          { s.per_cpu cpu with virt_id := (s.per_cpu cpu).cpu_id }
        else s.per_cpu cpu := by
    intro cpu
    simp only [arch_cell_destroy, State.emit]
    rw [arch_cell_destroy_loop_per_cpu]
  refine ⟨?_, ?_, ?_, ?_, ?_, ?_⟩
  · intro cpu h
    rw [hpc, if_pos h]
  · intro cpu h hid
    rw [hpc, if_pos h]
    exact hid
  · intro cpu h
    rw [hpc, if_neg h]
  · simp only [arch_cell_destroy, State.emit]
    rw [arch_cell_destroy_loop_trace]
    simp
  · intro cpu h
    rw [countP_is_cpu_on_flatMap, count_cpu_on_flatMap]
    exact ⟨List.count_eq_one_of_mem (for_each_cpu_nodup _) h,
      List.count_eq_one_of_mem (for_each_cpu_nodup _) h⟩
  · intro cpu h
    rw [countP_is_cpu_on_flatMap]
    exact List.count_eq_zero_of_not_mem h

/-- Scenario 2 as an instance of claim C4: the cell with the CPUs 2, 5 and 7,
created and then destroyed, leaves the three CPUs with their physical ids as
virtual ids, and each of them has been reset once. -/
theorem arch_cell_destroy_resets_every_cpu_witness :
    [2, 5, 7].map (fun cpu =>
      ((arch_cell_destroy consts16 env_ok (arch_cell_create env_ok root_state cell_2_5_7).2.2
        cell_2_5_7).per_cpu cpu).virt_id) = [2, 5, 7] ∧
    (arch_cell_destroy consts16 env_ok root_state cell_2_5_7).trace
      = [Event.arm_cell_dcaches_flush 1 1,
         Event.psci_cpu_on 2 entry_point.arch_reset_self 2,
         Event.psci_cpu_on 5 entry_point.arch_reset_self 5,
         Event.psci_cpu_on 7 entry_point.arch_reset_self 7,
         Event.irqchip_cell_exit 1, Event.arm_paging_cell_destroy 1] := by
  have h := arch_cell_destroy_resets_every_cpu consts16 env_ok
    (arch_cell_create env_ok root_state cell_2_5_7).2.2 cell_2_5_7
  have h0 := arch_cell_destroy_resets_every_cpu consts16 env_ok root_state cell_2_5_7
  have hcpus : for_each_cpu cell_2_5_7.cpu_set = [2, 5, 7] := by decide
  rw [hcpus] at h h0
  refine ⟨?_, ?_⟩
  · simp only [List.map_cons, List.map_nil]
    rw [h.1 2 (by decide), h.1 5 (by decide), h.1 7 (by decide)]
    decide
  · rw [h0.2.2.2.1]
    decide

/-! ## arch_handle_exit -/

theorem arch_dump_exit_regs_eq (regs : registers) (fuel n : Nat) (s : State) :
    arch_dump_exit_regs regs fuel n s
      = { s with trace := s.trace ++ (List.range' n fuel).map (arch_dump_exit_line regs) } := by
  induction fuel generalizing n s with
  | zero => simp [arch_dump_exit_regs]
  | succ k ih =>
    simp only [arch_dump_exit_regs]
    rw [ih]
    simp [State.emit, List.range'_succ, arch_dump_exit_line]

theorem arch_dump_exit_eq (K : Consts) (s : State) (regs : registers) (reason : String) :
    arch_dump_exit K s regs reason
      = { s with trace := s.trace ++ arch_dump_exit_events K s regs reason } := by
  simp only [arch_dump_exit, arch_dump_exit_regs_eq, arch_dump_exit_events, State.emit,
    List.range_eq_range']
  simp

theorem arch_dump_abt_eq (s : State) (is_data : Bool) :
    arch_dump_abt s is_data = { s with trace := s.trace ++ [arch_dump_abt_event s is_data] } := by
  simp [arch_dump_abt, arch_dump_abt_event, State.emit]

theorem not_collaborator_of_mem_dump (K : Consts) (s : State) (regs : registers)
    (reason : String) (e : Event) (h : e ∈ arch_dump_exit_events K s regs reason) :
    e.is_exit_collaborator = false := by
  simp only [arch_dump_exit_events, List.mem_cons, List.mem_append, List.mem_map,
    List.mem_singleton, List.not_mem_nil, or_false] at h
  rcases h with rfl | ⟨n, _, rfl⟩ | rfl
  · rfl
  · rfl
  · rfl

/-- Claim C5.  With pairwise different case labels, arch_handle_exit on an IRQ
exit calls irqchip_handle_irq and nothing else, on a trap exit calls
arch_handle_trap and nothing else, and returns the register context it was given
in both cases.  On every other exit reason it does not return: it prints the
register snapshot, for a data abort followed by HDFAR and ESR_EL2 and for a
prefetch abort by HIFAR and ESR_EL2, ends in panic_stop, and calls neither
collaborator. -/
theorem arch_handle_exit_routing (K : Consts) (s : State) (cpu_data : Nat) (regs : registers)
    (hd : K.exit_labels.Nodup) :
    (regs.exit_reason = K.EXIT_REASON_IRQ →
      arch_handle_exit K s cpu_data regs
        = (some regs, (stats_inc s cpu_data K.JAILHOUSE_CPU_STAT_VMEXITS_TOTAL).emit
            (Event.irqchip_handle_irq cpu_data))) ∧
    (regs.exit_reason = K.EXIT_REASON_TRAP →
      arch_handle_exit K s cpu_data regs
        = (some regs, (stats_inc s cpu_data K.JAILHOUSE_CPU_STAT_VMEXITS_TOTAL).emit
            (Event.arch_handle_trap cpu_data regs.exit_reason))) ∧
    (regs.exit_reason ≠ K.EXIT_REASON_IRQ → regs.exit_reason ≠ K.EXIT_REASON_TRAP →
      (arch_handle_exit K s cpu_data regs).1 = none ∧
      (∃ reason, (arch_handle_exit K s cpu_data regs).2.trace
        = s.trace ++ arch_dump_exit_events K s regs reason
            ++ (if regs.exit_reason = K.EXIT_REASON_DABT then [arch_dump_abt_event s true]
                else if regs.exit_reason = K.EXIT_REASON_PABT then [arch_dump_abt_event s false]
                else [])
            ++ [Event.panic_stop]) ∧
      (∀ e ∈ (arch_handle_exit K s cpu_data regs).2.trace,
        e.is_exit_collaborator = true → e ∈ s.trace)) := by
  simp only [Consts.exit_labels, List.nodup_cons, List.mem_cons, List.mem_singleton,
    List.not_mem_nil, or_false, not_or, List.nodup_nil, and_true] at hd
  obtain ⟨⟨h12, h13, h14, h15, h16, h17⟩, ⟨h23, h24, h25, h26, h27⟩, ⟨h34, h35, h36, h37⟩,
    ⟨h45, h46, h47⟩, ⟨h56, h57⟩, h67⟩ := hd
  refine ⟨?_, ?_, ?_⟩
  · intro h
    simp only [arch_handle_exit, h, if_true]
  · intro h
    have h1 : ¬ K.EXIT_REASON_TRAP = K.EXIT_REASON_IRQ := fun e => h12 e.symm
    simp only [arch_handle_exit, h, h1, if_true, if_false]
  · intro hirq htrap
    have key : ∃ reason, arch_handle_exit K s cpu_data regs
        = (none, { stats_inc s cpu_data K.JAILHOUSE_CPU_STAT_VMEXITS_TOTAL with
            trace := s.trace ++ arch_dump_exit_events K s regs reason
              ++ (if regs.exit_reason = K.EXIT_REASON_DABT then [arch_dump_abt_event s true]
                  else if regs.exit_reason = K.EXIT_REASON_PABT then
                    [arch_dump_abt_event s false]
                  else [])
              ++ [Event.panic_stop] }) := by
      simp only [arch_handle_exit, hirq, htrap, if_false, arch_dump_exit_eq, arch_dump_abt_eq,
        panic_stop, State.emit]
      by_cases hu : regs.exit_reason = K.EXIT_REASON_UNDEF
      · refine ⟨"undef", ?_⟩
        have e1 : ¬ K.EXIT_REASON_UNDEF = K.EXIT_REASON_DABT := h34
        have e2 : ¬ K.EXIT_REASON_UNDEF = K.EXIT_REASON_PABT := h35
        simp [hu, e1, e2, stats_inc, State.set_per_cpu, arch_dump_exit_events]
      · by_cases hda : regs.exit_reason = K.EXIT_REASON_DABT
        · refine ⟨"data abort", ?_⟩
          have e1 : ¬ K.EXIT_REASON_DABT = K.EXIT_REASON_UNDEF := fun e => h34 e.symm
          simp [hda, e1, stats_inc, State.set_per_cpu, arch_dump_exit_events,
            arch_dump_abt_event]
        · by_cases hpa : regs.exit_reason = K.EXIT_REASON_PABT
          · refine ⟨"prefetch abort", ?_⟩
            have e1 : ¬ K.EXIT_REASON_PABT = K.EXIT_REASON_UNDEF := fun e => h35 e.symm
            have e2 : ¬ K.EXIT_REASON_PABT = K.EXIT_REASON_DABT := fun e => h45 e.symm
            simp [hpa, e1, e2, stats_inc, State.set_per_cpu, arch_dump_exit_events,
              arch_dump_abt_event]
          · by_cases hh : regs.exit_reason = K.EXIT_REASON_HVC
            · refine ⟨"hvc", ?_⟩
              simp only [hu, hda, hpa, if_false]
              simp [hh, stats_inc, State.set_per_cpu, arch_dump_exit_events]
            · by_cases hf : regs.exit_reason = K.EXIT_REASON_FIQ
              · refine ⟨"fiq", ?_⟩
                simp only [hu, hda, hpa, hh, if_false]
                simp [hf, stats_inc, State.set_per_cpu, arch_dump_exit_events]
              · refine ⟨"unknown", ?_⟩
                simp only [hu, hda, hpa, hh, hf, if_false]
                simp [stats_inc, State.set_per_cpu, arch_dump_exit_events]
    obtain ⟨reason, hkey⟩ := key
    rw [hkey]
    refine ⟨rfl, ⟨reason, rfl⟩, ?_⟩
    intro e he hc
    simp only [List.mem_append, List.mem_singleton] at he
    rcases he with ((he | he) | he) | he
    · exact he
    · rw [not_collaborator_of_mem_dump K s regs reason e he] at hc
      exact absurd hc (by decide)
    · split_ifs at he
      · simp only [List.mem_singleton] at he
        subst he
        simp [arch_dump_abt_event, Event.is_exit_collaborator] at hc
      · simp only [List.mem_singleton] at he
        subst he
        simp [arch_dump_abt_event, Event.is_exit_collaborator] at hc
      · simp at he
    · subst he
      exact absurd hc (by decide)

/-- Scenario 3 as an instance of claim C5: a data abort (exit reason 4 of the
constants consts16) does not return; the trace ends in panic_stop, contains the
line with the fault address HDFAR and the syndrome ESR_EL2, and contains no call
of irqchip_handle_irq or arch_handle_trap. -/
theorem arch_handle_exit_routing_witness :
    consts16.exit_labels.Nodup ∧
    (arch_handle_exit consts16 abort_state 0 (regs_with_reason 4)).1 = none ∧
    (arch_handle_exit consts16 abort_state 0 (regs_with_reason 4)).2.trace.getLast?
      = some Event.panic_stop ∧
    Event.panic_printk "Physical address: 0x%08lx ESR: 0x%08x\n"
        [Arg.num 0xdead000, Arg.num 0x93000007]
      ∈ (arch_handle_exit consts16 abort_state 0 (regs_with_reason 4)).2.trace ∧
    (∀ e ∈ (arch_handle_exit consts16 abort_state 0 (regs_with_reason 4)).2.trace,
      e.is_exit_collaborator = true → e ∈ abort_state.trace) :=
  have h := (arch_handle_exit_routing consts16 abort_state 0 (regs_with_reason 4)
    (by decide)).2.2 (by decide) (by decide)
  ⟨by decide, h.1, by decide, by decide, h.2.2⟩

/-! ## arch_flush_cell_vcpu_caches -/

theorem arch_flush_loop_trace (E : Env) (l : List Nat) (s : State) :
    (arch_flush_cell_vcpu_caches_loop E l s).trace = s.trace ++ l.map (arch_flush_event E) := by
  induction l generalizing s with
  | nil => simp [arch_flush_cell_vcpu_caches_loop]
  | cons a rest ih =>
    simp only [arch_flush_cell_vcpu_caches_loop]
    rw [ih]
    by_cases h : a = E.this_cpu_id <;>
      simp [h, State.emit, State.set_per_cpu, arch_flush_event]

theorem arch_flush_loop_per_cpu (E : Env) (l : List Nat) (s : State) (cpu : Nat) :
    (arch_flush_cell_vcpu_caches_loop E l s).per_cpu cpu
      = if cpu ∈ l ∧ cpu ≠ E.this_cpu_id then
          { s.per_cpu cpu with flush_vcpu_caches := true }
        else s.per_cpu cpu := by
  induction l generalizing s with
  | nil => simp [arch_flush_cell_vcpu_caches_loop]
  | cons a rest ih =>
    simp only [arch_flush_cell_vcpu_caches_loop]
    rw [ih]
    by_cases ha : a = E.this_cpu_id
    · subst ha
      by_cases hc : cpu = E.this_cpu_id
      · simp [hc, State.emit]
      · simp [hc, State.emit]
    · by_cases hca : cpu = a
      · subst hca
        by_cases hr : cpu ∈ rest <;> simp [ha, hr, State.emit, State.set_per_cpu]
      · by_cases hr : cpu ∈ rest <;>
          simp [ha, hr, hca, State.emit, State.set_per_cpu, Function.update_noteq hca]

theorem countP_is_flush_map (E : Env) (l : List Nat) :
    (l.map (arch_flush_event E)).countP Event.is_flush_tlbs = l.count E.this_cpu_id := by
  induction l with
  | nil => simp
  | cons a rest ih =>
    rw [List.map_cons, List.countP_cons, ih, List.count_cons]
    by_cases h : a = E.this_cpu_id <;> simp [h, arch_flush_event, Event.is_flush_tlbs]

/-- Claim C6.  arch_flush_cell_vcpu_caches walks the cell's CPU set once: for
the executing CPU it flushes the local TLB, for every other CPU of the set it
stores true to that CPU's flush_vcpu_caches.  So the number of TLB flushes grows
by one exactly when the executing CPU is in the set, no flush is made for another
CPU, the flag of every other CPU of the set is true afterwards, and the records of
the executing CPU and of all CPUs outside the set are as before. -/
theorem arch_flush_cell_vcpu_caches_effect (E : Env) (s : State) (c : cell) :
    (arch_flush_cell_vcpu_caches E s c).trace
      = s.trace ++ (for_each_cpu c.cpu_set).map (arch_flush_event E) ∧
    (arch_flush_cell_vcpu_caches E s c).trace.countP Event.is_flush_tlbs
      = s.trace.countP Event.is_flush_tlbs
          + (if E.this_cpu_id ∈ for_each_cpu c.cpu_set then 1 else 0) ∧
    (∀ cpu, cpu ≠ E.this_cpu_id →
      Event.arm_paging_vcpu_flush_tlbs cpu ∈ (arch_flush_cell_vcpu_caches E s c).trace →
      Event.arm_paging_vcpu_flush_tlbs cpu ∈ s.trace) ∧
    (∀ cpu ∈ for_each_cpu c.cpu_set, cpu ≠ E.this_cpu_id →
      ((arch_flush_cell_vcpu_caches E s c).per_cpu cpu).flush_vcpu_caches = true) ∧
    (∀ cpu, cpu = E.this_cpu_id ∨ cpu ∉ for_each_cpu c.cpu_set →
      (arch_flush_cell_vcpu_caches E s c).per_cpu cpu = s.per_cpu cpu) := by
  unfold arch_flush_cell_vcpu_caches
  refine ⟨arch_flush_loop_trace E _ s, ?_, ?_, ?_, ?_⟩
  · rw [arch_flush_loop_trace, List.countP_append, countP_is_flush_map]
    by_cases h : E.this_cpu_id ∈ for_each_cpu c.cpu_set
    · rw [if_pos h, List.count_eq_one_of_mem (for_each_cpu_nodup _) h]
    · rw [if_neg h, List.count_eq_zero_of_not_mem h]
  · intro cpu hne hmem
    rw [arch_flush_loop_trace, List.mem_append] at hmem
    rcases hmem with hmem | hmem
    · exact hmem
    · rw [List.mem_map] at hmem
      obtain ⟨a, _, ha⟩ := hmem
      unfold arch_flush_event at ha
      split_ifs at ha
      · injection ha with ha
        exact absurd ha.symm hne
  · intro cpu hmem hne
    rw [arch_flush_loop_per_cpu, if_pos ⟨hmem, hne⟩]
  · intro cpu h
    rw [arch_flush_loop_per_cpu, if_neg]
    rintro ⟨h1, h2⟩
    rcases h with h | h
    · exact h2 h
    · exact h h1

/-- Scenario 5 as an instance of claim C6: the cell with the CPUs 0 and 1,
flushed from CPU 0.  CPU 0 flushes its TLB, the flag of CPU 1 goes from false to
true, and no other event is recorded. -/
theorem arch_flush_cell_vcpu_caches_effect_witness :
    (arch_flush_cell_vcpu_caches env_ok root_state cell_0_1).trace
      = [Event.arm_paging_vcpu_flush_tlbs 0, Event.store_flush_vcpu_caches 1 true] ∧
    (root_state.per_cpu 1).flush_vcpu_caches = false ∧
    ((arch_flush_cell_vcpu_caches env_ok root_state cell_0_1).per_cpu 1).flush_vcpu_caches
      = true ∧
    ((arch_flush_cell_vcpu_caches env_ok root_state cell_0_1).per_cpu 0).flush_vcpu_caches
      = false := by
  have h := arch_flush_cell_vcpu_caches_effect env_ok root_state cell_0_1
  refine ⟨?_, by decide, h.2.2.2.1 1 (by decide) (by decide), ?_⟩
  · rw [h.1]
    decide
  · rw [h.2.2.2.2 0 (Or.inl rfl)]
    decide

/-! ## arch_suspend_self -/

theorem per_cpu_clear_of_false (p : per_cpu) (h : p.flush_vcpu_caches = false) :
    { p with flush_vcpu_caches := false } = p := by
  cases p
  simp_all

/-- Claim C7.  When arch_suspend_self returns, the flush_vcpu_caches flag of the
CPU is false.  If the flag was set when psci_suspend returned, the calls after
psci_suspend are one local TLB flush, the barrier, and only then the store of
false to the flag; if it was not set, nothing follows psci_suspend and no field
is written.  The records of all other CPUs, and the other fields of this CPU, are
as found at wake-up. -/
theorem arch_suspend_self_flush_pending (E : Env) (s : State) (cpu_data : Nat) :
    ((arch_suspend_self E s cpu_data).per_cpu cpu_data).flush_vcpu_caches = false ∧
    ((E.per_cpu_at_wake s.per_cpu cpu_data cpu_data).flush_vcpu_caches = true →
      (arch_suspend_self E s cpu_data).trace = s.trace ++
        [Event.psci_suspend cpu_data, Event.arm_paging_vcpu_flush_tlbs E.this_cpu_id,
         Event.dsb_nsh, Event.store_flush_vcpu_caches cpu_data false]) ∧
    ((E.per_cpu_at_wake s.per_cpu cpu_data cpu_data).flush_vcpu_caches = false →
      (arch_suspend_self E s cpu_data).trace = s.trace ++ [Event.psci_suspend cpu_data] ∧
      (arch_suspend_self E s cpu_data).per_cpu = E.per_cpu_at_wake s.per_cpu cpu_data) ∧
    (arch_suspend_self E s cpu_data).trace.countP Event.is_flush_tlbs
      = s.trace.countP Event.is_flush_tlbs
          + (if (E.per_cpu_at_wake s.per_cpu cpu_data cpu_data).flush_vcpu_caches then 1 else 0) ∧
    (∀ other, other ≠ cpu_data →
      (arch_suspend_self E s cpu_data).per_cpu other
        = E.per_cpu_at_wake s.per_cpu cpu_data other) ∧
    (arch_suspend_self E s cpu_data).per_cpu cpu_data
      = { E.per_cpu_at_wake s.per_cpu cpu_data cpu_data with flush_vcpu_caches := false } := by
  unfold arch_suspend_self psci_suspend
  by_cases h : (E.per_cpu_at_wake s.per_cpu cpu_data cpu_data).flush_vcpu_caches = true
  · refine ⟨?_, ?_, ?_, ?_, ?_, ?_⟩
    · simp [h, State.emit, State.set_per_cpu]
    · intro _; simp [h, State.emit, State.set_per_cpu]
    · intro h2; rw [h] at h2; exact absurd h2 (by decide)
    · simp [h, State.emit, State.set_per_cpu, List.countP_append, List.countP_cons,
        Event.is_flush_tlbs]
    · intro other hne
      simp [h, State.emit, State.set_per_cpu, Function.update_noteq hne]
    · simp [h, State.emit, State.set_per_cpu]
  · have hf : (E.per_cpu_at_wake s.per_cpu cpu_data cpu_data).flush_vcpu_caches = false := by
      simpa using h
    refine ⟨?_, ?_, ?_, ?_, ?_, ?_⟩
    · simp [hf, State.emit]
    · intro h2; exact absurd h2 h
    · intro _; simp [hf, State.emit]
    · simp [hf, State.emit, List.countP_append, List.countP_cons, Event.is_flush_tlbs]
    · intro other _; simp [hf, State.emit]
    · simp only [hf, State.emit]
      exact (per_cpu_clear_of_false _ hf).symm

/-- An instance of claim C7: CPU 1 owes a flush when it wakes; it flushes once,
then clears the flag. -/
theorem arch_suspend_self_flush_pending_witness :
    (env_cpu1.per_cpu_at_wake flush_owed_state.per_cpu 1 1).flush_vcpu_caches = true ∧
    ((arch_suspend_self env_cpu1 flush_owed_state 1).per_cpu 1).flush_vcpu_caches = false ∧
    (arch_suspend_self env_cpu1 flush_owed_state 1).trace =
      [Event.psci_suspend 1, Event.arm_paging_vcpu_flush_tlbs 1,
       Event.dsb_nsh, Event.store_flush_vcpu_caches 1 false] :=
  ⟨by decide, (arch_suspend_self_flush_pending env_cpu1 flush_owed_state 1).1,
    (arch_suspend_self_flush_pending env_cpu1 flush_owed_state 1).2.1 (by decide)⟩

/-- The management signal SGI_CPU_OFF is handled by arch_suspend_self. -/
theorem arch_handle_sgi_cpu_off (K : Consts) (E : Env) (s : State) (cpu_data : Nat)
    (h : K.SGI_CPU_OFF ≠ K.SGI_INJECT) :
    arch_handle_sgi K E s cpu_data K.SGI_CPU_OFF
      = arch_suspend_self E (stats_inc s cpu_data K.JAILHOUSE_CPU_STAT_VMEXITS_MANAGEMENT)
          cpu_data := by
  simp [arch_handle_sgi, h]

/-! ## arch_suspend_cpu -/

theorem int_shl_one_of_lt (cpu_id : Nat) (h : cpu_id < 31) :
    int_shl_one cpu_id = ((2 ^ cpu_id : Nat) : Int) := by
  have h1 : 2 ^ cpu_id < 2 ^ 31 := Nat.pow_lt_pow_right (by decide) h
  have h2 : (2 ^ cpu_id) % U32 = 2 ^ cpu_id := by
    apply Nat.mod_eq_of_lt
    simp only [U32]
    omega
  simp only [int_shl_one, Nat.one_shiftLeft, h2, h1, if_true]

theorem to_unsigned_int_shl_one (bits cpu_id : Nat) (hb : cpu_id < bits) (hw : bits ≤ 32) :
    to_unsigned bits (int_shl_one cpu_id) = 2 ^ cpu_id := by
  by_cases h : cpu_id < 31
  · rw [int_shl_one_of_lt _ h]
    have h1 : 2 ^ cpu_id < 2 ^ bits := Nat.pow_lt_pow_right (by decide) hb
    have h2 : ((2 ^ cpu_id : Nat) : Int) % ((2 : Int) ^ bits) = ((2 ^ cpu_id : Nat) : Int) := by
      apply Int.emod_eq_of_lt (Int.ofNat_nonneg _)
      have : ((2 ^ cpu_id : Nat) : Int) < ((2 ^ bits : Nat) : Int) := Int.ofNat_lt.mpr h1
      simpa using this
    rw [to_unsigned, h2, Int.toNat_ofNat]
  · have hc : cpu_id = 31 := by omega
    have hbits : bits = 32 := by omega
    subst hc hbits
    decide

/-- Claim C8 as stated fails.  With a 16 bit wide targets field, suspending the
running CPU 16 sends a signal whose targets mask is 0: the bit `1 << 16` does not
fit, no bit is set, and the signal with targets = 2 ^ 16 is not sent.  The same
happens in a 32 bit wide field for CPU 32, and in a 64 bit wide field CPU 31
yields a mask with 33 bits set, since `1 << 31` is a negative int. -/
theorem arch_suspend_cpu_targets_overflow :
    env_running.psci_cpu_stopped 16 = false ∧
    (arch_suspend_cpu consts16 env_running root_state 16).trace
      = [Event.irqchip_send_sgi
          { routing_mode := 0, aff1 := 0, aff2 := 0, aff3 := 0, targets := 0, id := 1 },
         Event.psci_wait_cpu_stopped 16] ∧
    Event.irqchip_send_sgi
        { routing_mode := 0, aff1 := 0, aff2 := 0, aff3 := 0, targets := 2 ^ 16, id := 1 }
      ∉ (arch_suspend_cpu consts16 env_running root_state 16).trace ∧
    (arch_suspend_cpu consts32 env_running root_state 32).trace
      = [Event.irqchip_send_sgi
          { routing_mode := 0, aff1 := 0, aff2 := 0, aff3 := 0, targets := 0, id := 1 },
         Event.psci_wait_cpu_stopped 32] ∧
    (arch_suspend_cpu consts64 env_running root_state 31).trace
      = [Event.irqchip_send_sgi
          { routing_mode := 0, aff1 := 0, aff2 := 0, aff3 := 0,
            targets := 2 ^ 64 - 2 ^ 31, id := 1 },
         Event.psci_wait_cpu_stopped 31] := by
  decide

/-- Claim C8, amended.  For a CPU id below the width of the targets field, a
field of at most 32 bits: if the target is reported stopped, arch_suspend_cpu
returns the state unchanged (no signal, no wait); otherwise it sends exactly one
signal, with id SGI_CPU_OFF, routing mode 0, zero affinity fields and
targets = 2 ^ cpu_id, a mask whose only set bit is the bit cpu_id, and then waits
in psci_wait_cpu_stopped for that CPU. -/
theorem arch_suspend_cpu_signal (K : Consts) (E : Env) (s : State) (cpu_id : Nat)
    (hb : cpu_id < K.sgi_targets_bits) (hw : K.sgi_targets_bits ≤ 32) :
    (E.psci_cpu_stopped cpu_id = true → arch_suspend_cpu K E s cpu_id = s) ∧
    (E.psci_cpu_stopped cpu_id = false →
      (arch_suspend_cpu K E s cpu_id).trace = s.trace ++
        [Event.irqchip_send_sgi
          { routing_mode := 0, aff1 := 0, aff2 := 0, aff3 := 0,
            targets := 2 ^ cpu_id, id := K.SGI_CPU_OFF },
         Event.psci_wait_cpu_stopped cpu_id] ∧
      (arch_suspend_cpu K E s cpu_id).per_cpu = s.per_cpu ∧
      (arch_suspend_cpu K E s cpu_id).sysregs = s.sysregs) ∧
    to_unsigned K.sgi_targets_bits (int_shl_one cpu_id) = 2 ^ cpu_id ∧
    (∀ bit, (to_unsigned K.sgi_targets_bits (int_shl_one cpu_id)).testBit bit
      = decide (cpu_id = bit)) ∧
    to_unsigned K.sgi_targets_bits (int_shl_one cpu_id) ≠ 0 := by
  have ht := to_unsigned_int_shl_one K.sgi_targets_bits cpu_id hb hw
  refine ⟨?_, ?_, ht, ?_, ?_⟩
  · intro h
    simp [arch_suspend_cpu, h]
  · intro h
    simp [arch_suspend_cpu, h, ht, State.emit]
  · intro bit
    rw [ht, Nat.testBit_two_pow]
  · rw [ht]
    exact Nat.pos_iff_ne_zero.mp (Nat.pos_pow_of_pos _ (by decide))

/-- Scenario 4 as an instance of the amended claim C8: CPU 3 runs and is
suspended; one signal with targets = 8 and id SGI_CPU_OFF is sent, then the
caller waits for CPU 3. -/
theorem arch_suspend_cpu_signal_witness :
    3 < consts16.sgi_targets_bits ∧ consts16.sgi_targets_bits ≤ 32 ∧
    env_running.psci_cpu_stopped 3 = false ∧
    (arch_suspend_cpu consts16 env_running root_state 3).trace
      = [Event.irqchip_send_sgi
          { routing_mode := 0, aff1 := 0, aff2 := 0, aff3 := 0, targets := 8, id := 1 },
         Event.psci_wait_cpu_stopped 3] ∧
    arch_suspend_cpu consts16 env_ok root_state 3 = root_state :=
  ⟨by decide, by decide, by decide,
    ((arch_suspend_cpu_signal consts16 env_running root_state 3 (by decide) (by decide)).2.1
      (by decide)).1,
    (arch_suspend_cpu_signal consts16 env_ok root_state 3 (by decide) (by decide)).1 (by decide)⟩

end Jailhouse
